import Mathlib

/-!
Shallow embedding of the interview bot in `src/src/bot.ts`
(`MyBot`: per-candidate interview state machine, turn dispatcher,
semantic-extraction handlers, dynamic question loop, assessment aggregation).

External effects are modelled by an `Oracle` per turn: the results of the
four language-understanding calls, the job-description fetch, and a bounded
fault model for the transport (`failAtSend` makes the n-th fallible
`sendActivity` of the turn raise, as a network send can; the sends inside
error paths are modelled as succeeding, and at most one send fails per turn).
All functions are executable and mirror the TypeScript control flow,
including each handler's own try/catch scopes.
-/

namespace InterviewBot

/-- The `currentStage` union type of `InterviewState` in bot.ts. -/
inductive Stage
  | greeting
  | name_prompt
  | jd_selection
  | pre_screen
  | jd_questions
  | closing
  | complete
deriving DecidableEq, Repr

/-- The string tag of a stage, as it appears in the TypeScript union. -/
def stageLabel : Stage → String
  | Stage.greeting => "greeting"
  | Stage.name_prompt => "name_prompt"
  | Stage.jd_selection => "jd_selection"
  | Stage.pre_screen => "pre_screen"
  | Stage.jd_questions => "jd_questions"
  | Stage.closing => "closing"
  | Stage.complete => "complete"

/-- Speaker role in `conversationHistory`. -/
inductive Role
  | user
  | assistant
deriving DecidableEq, Repr

/-- One entry of `conversationHistory`. -/
structure HistMsg where
  role : Role
  content : String
deriving DecidableEq, Repr

/-- One outbound activity: the `text` field and the `speak` (SSML) field. -/
structure Activity where
  text : String
  speak : String
deriving DecidableEq, Repr

/-- One extracted entity of the assessment JSON:
`{"entity": "type", "text": "value"}`. -/
structure EntityRec where
  entity : String
  text : String
deriving DecidableEq, Repr

/-- A value stored in the `responses : Record<string, any>` object: raw
response strings and summaries (`str`), numeric scores (`num`), the literal
string `N/A` stored for a missing or falsy score (`na`), and entity lists. -/
inductive RespVal
  | str (s : String)
  | num (n : Int)
  | na
  | entities (es : List EntityRec)
deriving DecidableEq, Repr

/-- The parsed JSON object returned by the assessment call. A `none` field is
one the JSON object lacks. -/
structure GptAnalysis where
  Summary : Option String
  ClarityScore : Option Int
  RelevanceScore : Option Int
  ExtractedEntities : Option (List EntityRec)
deriving DecidableEq, Repr

deriving instance DecidableEq for Except

/-- The external effects of one processed turn. `Except.error ()` on a call
field means the awaited call raised. `failAtSend = some k` makes the k-th
fallible send of the turn raise (sends on error paths are not counted). -/
structure Oracle where
  selection : Except Unit (Option String)
  nameExtract : Except Unit (Option String)
  analysis : Except Unit GptAnalysis
  dynQuestion : Except Unit (Option String)
  jdFetch : Except Unit String
  failAtSend : Option Nat
deriving DecidableEq, Repr

/-- The `InterviewState` record of bot.ts. `responses` is the
`Record<string, any>` object, modelled as an association list where the
most recent binding for a key shadows older ones (JS assignment overwrite). -/
structure InterviewState where
  candidateName : Option String
  currentStage : Stage
  jdFileName : Option String
  jdContent : String
  availableJDs : List String
  questionCount : Nat
  maxQuestions : Nat
  responses : List (String × RespVal)
  conversationHistory : List HistMsg
deriving DecidableEq, Repr

/-- Activities emitted so far in this turn, and how many fallible sends were
attempted (the index checked against `Oracle.failAtSend`). -/
structure Emitter where
  acts : List Activity
  ctr : Nat
deriving DecidableEq, Repr

/-- Result of a stage handler: the session state, the emitter, and whether an
exception escaped the handler toward the dispatcher catch. -/
structure HRes where
  state : InterviewState
  em : Emitter
  threw : Bool
deriving DecidableEq, Repr

/-- Result of `completeInterview`: as `HRes`, plus whether the session record
was deleted from the store. -/
structure CRes where
  state : InterviewState
  em : Emitter
  threw : Bool
  deleted : Bool
deriving DecidableEq, Repr

/-- Result of one dispatched turn (`processUserMessage`): final session state,
emitted activities in order, whether the session record was deleted, and
whether the dispatcher-level catch fired. -/
structure StepRes where
  state : InterviewState
  out : List Activity
  deleted : Bool
  caught : Bool
deriving DecidableEq, Repr

/-- JS `a || b` on an optional string: the default replaces both a missing
and an empty (falsy) string. -/
def strOr (o : Option String) (dflt : String) : String :=
  match o with
  | some s => if s = "" then dflt else s
  | none => dflt

/-- JS template interpolation of a possibly-undefined string value. -/
def interpOpt (o : Option String) : String :=
  match o with
  | some s => s
  | none => "undefined"

/-- JS `String.prototype.trim` (structural implementation over the character
list, so that concrete runs reduce in the kernel). -/
def jsTrim (s : String) : String :=
  String.mk (((s.data.dropWhile Char.isWhitespace).reverse.dropWhile Char.isWhitespace).reverse)

/-- Split `l` around the first occurrence of `pat`: `some (before, after)`. -/
def listFindPat (pat : List Char) : List Char → Option (List Char × List Char)
  | [] => none
  | c :: rest =>
      if List.isPrefixOf pat (c :: rest) then some ([], (c :: rest).drop pat.length)
      else
        match listFindPat pat rest with
        | some (b, a) => some (c :: b, a)
        | none => none

/-- JS `String.prototype.replace` with a string pattern: replaces only the
first occurrence (all patterns used by the bot are non-empty). -/
def replaceFirst (s pat rep : String) : String :=
  match listFindPat pat.data s.data with
  | some (b, a) => String.mk (b ++ rep.data ++ a)
  | none => s

/-- One global single-character replacement, as `replace(/c/g, rep)`. -/
def replaceChar (l : List Char) (c : Char) (rep : List Char) : List Char :=
  l.foldr (fun x acc => (if x = c then rep else [x]) ++ acc) []

/-- `name.replace(/['"]/g, '')`: drop apostrophes and double quotes. -/
def removeQuotes (s : String) : String :=
  String.mk (s.data.filter (fun c => c ≠ Char.ofNat 39 ∧ c ≠ Char.ofNat 34))

/-- `toUpperCase` restricted to the ASCII letters that occur in the sentinel
comparison. -/
def asciiUpper (s : String) : String :=
  String.mk (s.data.map Char.toUpper)

/-- `generateSsml` of bot.ts: escape `&`, `<`, `>` (in that order) and wrap in
the fixed prosody template. -/
def generateSsml (text : String) : String :=
  let sanitizedText := String.mk
    (replaceChar (replaceChar (replaceChar text.data (Char.ofNat 38) "&amp;".data)
      (Char.ofNat 60) "&lt;".data) (Char.ofNat 62) "&gt;".data)
  "<speak version='1.0' xmlns='http://www.w3.org/2001/10/synthesis' xml:lang='en-US'>\n            <prosody rate='medium' pitch='medium'>\n                "
    ++ sanitizedText ++ "\n            </prosody>\n        </speak>"

/-- An activity whose `speak` field is derived from its text by
`generateSsml`, the pattern used at every ordinary send site. -/
def mkActivity (t : String) : Activity :=
  { text := t, speak := generateSsml t }

/-! ## Fixed texts of `fixedFlow` and the other literal messages -/

/-- `fixedFlow.greeting.question`. -/
def greetingQuestion : String :=
  "Hello! Welcome to the KPMG Global Services initial interview. I am your AI interviewer."

/-- `fixedFlow.name_prompt.question`. -/
def namePromptQuestion : String :=
  "Thank you for confirming the role. To begin, please tell me your full name."

/-- `fixedFlow.pre_screen.question` (with its `{name}` placeholder). -/
def preScreenQuestion : String :=
  "It's a pleasure to meet you, {name}. I have confirmed the Job Description for the role you applied for. Before we dive into technical and value-based questions, please summarize your educational background and professional experience, focusing on how you meet the job's basic requirements."

/-- `fixedFlow.closing.question` (with its `{name}` placeholder). -/
def closingQuestion : String :=
  "Thank you, {name}, for taking the time to complete this interview. Your responses have been recorded and will be reviewed by our hiring team. You can expect to hear back from us within 3-5 business days. Have a great day!"

/-- The empty-speech re-prompt of `processUserMessage`. -/
def noSpeechActivity : Activity :=
  mkActivity "I didn't receive any speech. Could you please speak up?"

/-- The notice sent in stage `complete`. -/
def completedNoticeActivity : Activity :=
  mkActivity "Your interview has been completed. Thank you!"

/-- The defensive fallback notice of the dispatcher's final `else`. -/
def unknownStateActivity : Activity :=
  mkActivity "I seem to be in an unknown state. Let's restart the interview. Please refresh if this persists."

/-- The re-prompt text of `handleJDSelection` when the resolved value is
rejected. -/
def jdRepromptText (n : Nat) : String :=
  "I couldn't identify that selection. Please select a number between 1 and " ++ toString n ++ "."

/-- The text of `sendNameClarification`. -/
def nameClarificationText : String :=
  "I apologize, I didn't catch your name. Could you state it clearly? For example: 'My name is John Smith'"

/-- The hand-written SSML of `sendNameClarification` (not derived from its
text). -/
def nameClarificationSsml : String :=
  "<speak version='1.0' xmlns='http://www.w3.org/2001/10/synthesis' xml:lang='en-US'>\n            <prosody rate='medium'>\n                I apologize, I didn't quite catch your full name.\n                <break time='300ms'/>\n                Could you please state it clearly?\n            </prosody>\n        </speak>"

/-- The activity sent by `sendNameClarification`. -/
def nameClarificationActivity : Activity :=
  { text := nameClarificationText, speak := nameClarificationSsml }

/-- The text of `sendErrorMessage`. -/
def errorMessageText : String :=
  "I'm experiencing technical difficulties. Could you please repeat your last response?"

/-- The hand-written SSML of `sendErrorMessage` (not derived from its text). -/
def errorMessageSsml : String :=
  "<speak version='1.0' xmlns='http://www.w3.org/2001/10/synthesis' xml:lang='en-US'>\n            <prosody rate='medium'>\n                I'm experiencing some technical difficulties.\n                <break time='300ms'/>\n                Could you please repeat?\n            </prosody>\n        </speak>"

/-- The activity sent by `sendErrorMessage`. -/
def errorActivity : Activity :=
  { text := errorMessageText, speak := errorMessageSsml }

/-! ## Emission and small state helpers -/

/-- One fallible `sendActivity`: returns the new emitter and whether the send
raised (the activity is then not delivered). -/
def trySend (o : Oracle) (em : Emitter) (a : Activity) : Emitter × Bool :=
  if o.failAtSend = some em.ctr then ({ em with ctr := em.ctr + 1 }, true)
  else ({ acts := em.acts ++ [a], ctr := em.ctr + 1 }, false)

/-- A send on an error-handling path, modelled as always delivered (bounded
fault model: at most one send per turn raises). -/
def emitSafe (em : Emitter) (a : Activity) : Emitter :=
  { em with acts := em.acts ++ [a] }

/-- `state.conversationHistory.push({role, content})`. -/
def pushHist (s : InterviewState) (r : Role) (content : String) : InterviewState :=
  { s with conversationHistory := s.conversationHistory ++ [{ role := r, content := content }] }

/-- The recurring send site shape `await context.sendActivity(a);
state.conversationHistory.push({role: "assistant", content: t})`: on a raised
send the push does not run and the raise propagates to the caller. -/
def sendActivityAndPush (o : Oracle) (s : InterviewState) (em : Emitter) (a : Activity)
    (t : String) : HRes :=
  let sent := trySend o em a
  if sent.2 then { state := s, em := sent.1, threw := true }
  else { state := pushHist s Role.assistant t, em := sent.1, threw := false }

/-- `state.responses[key] = value` (the newest binding shadows older ones). -/
def setResp (s : InterviewState) (key : String) (v : RespVal) : InterviewState :=
  { s with responses := (key, v) :: s.responses }

/-! ## Handlers -/

/-- `fetchJobDescription`: the blob download, with its internal catch that
substitutes the fixed fallback JD text. Never raises to the caller. -/
def fetchJobDescription (o : Oracle) (fileName : String) : String :=
  match o.jdFetch with
  | Except.ok t => t
  | Except.error _ =>
      "JD Fetch Failed for " ++ fileName ++ ". Default Role: Senior Consultant. Key Skills: Leadership, Project Management, Azure."

/-- The catch block shared shape: a raise inside a handler-local try is
answered by `sendErrorMessage` and absorbed (never reaches the dispatcher). -/
def withSendErrorCatch (r : HRes) : HRes :=
  if r.threw then { state := r.state, em := emitSafe r.em errorActivity, threw := false }
  else r

/-- `handleJDSelection`: resolve the utterance to a JD file name via the
understanding backend; accept only a non-empty, non-`N/A` value contained in
`availableJDs`. Its try/catch converts any raise (backend call or the send of
the next question) into `sendErrorMessage`, so it never throws to the
dispatcher. -/
def handleJDSelection (o : Oracle) (s : InterviewState) (em : Emitter) : HRes :=
  match o.selection with
  | Except.error _ =>
      { state := s, em := emitSafe em errorActivity, threw := false }
  | Except.ok content =>
      let chosenFileName := jsTrim (content.getD "")
      withSendErrorCatch
        (if chosenFileName ≠ "" ∧ chosenFileName ≠ "N/A" ∧ s.availableJDs.contains chosenFileName then
          sendActivityAndPush o
            { s with jdFileName := some chosenFileName,
                     jdContent := fetchJobDescription o chosenFileName,
                     currentStage := Stage.name_prompt }
            em (mkActivity namePromptQuestion) namePromptQuestion
        else
          sendActivityAndPush o s em (mkActivity (jdRepromptText s.availableJDs.length))
            (jdRepromptText s.availableJDs.length))

/-- `sendNameClarification`: send the fixed clarification (hand-written SSML)
and, on success, push its text to the history. A raise propagates to the
caller. -/
def sendNameClarification (o : Oracle) (s : InterviewState) (em : Emitter) : HRes :=
  sendActivityAndPush o s em nameClarificationActivity nameClarificationText

/-- The question text chosen by `sendNextQuestion`: the fixed pre-screen or
closing question with the candidate name substituted for the first
`{name}` occurrence (JS string-pattern `replace`). -/
def nextQuestionText (s : InterviewState) : String :=
  if s.currentStage = Stage.pre_screen then
    replaceFirst preScreenQuestion "{name}" (strOr s.candidateName "there")
  else if s.currentStage = Stage.closing then
    replaceFirst closingQuestion "{name}" (strOr s.candidateName "there")
  else ""

/-- `sendNextQuestion` of bot.ts. -/
def sendNextQuestion (o : Oracle) (s : InterviewState) (em : Emitter) : HRes :=
  sendActivityAndPush o s em (mkActivity (nextQuestionText s)) (nextQuestionText s)

/-- `handleNameExtraction`: extract the candidate name; on a usable name set
it, advance to `pre_screen` and send the pre-screen question; otherwise (or on
a raise anywhere in the try block) fall back to `sendNameClarification`. The
catch's own clarification may itself raise to the dispatcher. -/
def handleNameExtraction (o : Oracle) (s : InterviewState) (em : Emitter) : HRes :=
  match o.nameExtract with
  | Except.error _ => sendNameClarification o s em
  | Except.ok content =>
      let cleanName := removeQuotes (jsTrim (content.getD ""))
      if cleanName ≠ "" ∧ asciiUpper cleanName ≠ "N/A" then
        let s1 := { s with candidateName := some cleanName, currentStage := Stage.pre_screen }
        let r := sendNextQuestion o s1 em
        if r.threw then sendNameClarification o r.state r.em else r
      else
        let r := sendNameClarification o s em
        if r.threw then sendNameClarification o r.state r.em else r

/-- The stage label under which `handleGPTResponseAnalysis` records the
assessment. -/
def analysisStageLabel (s : InterviewState) : String :=
  if s.currentStage = Stage.jd_questions then "jd_q" ++ toString (s.questionCount + 1)
  else stageLabel s.currentStage

/-- `gptAnalysis.XScore || 'N/A'`: a missing or zero (falsy) score stores the
`N/A` string. -/
def scoreVal (o : Option Int) : RespVal :=
  match o with
  | some n => if n = 0 then RespVal.na else RespVal.num n
  | none => RespVal.na

/-- The try/catch body of `handleGPTResponseAnalysis`: store the parsed
assessment fields, or the degraded record on a raised call or non-parsing
JSON. -/
def recordAnalysis (o : Oracle) (s : InterviewState) (stage : String) : InterviewState :=
  match o.analysis with
  | Except.ok gptAnalysis =>
      let sA := setResp s (stage ++ "_gpt_summary")
        (RespVal.str (strOr gptAnalysis.Summary "Summary pending."))
      let sB := setResp sA (stage ++ "_clarity_score") (scoreVal gptAnalysis.ClarityScore)
      let sC := setResp sB (stage ++ "_relevance_score") (scoreVal gptAnalysis.RelevanceScore)
      setResp sC (stage ++ "_entities") (RespVal.entities (gptAnalysis.ExtractedEntities.getD []))
  | Except.error _ =>
      let sA := setResp s (stage ++ "_gpt_summary") (RespVal.str "Analysis failed.")
      setResp sA (stage ++ "_entities") (RespVal.entities [])

/-- `handleGPTResponseAnalysis`: record the structured assessment under the
current stage label; in stage `jd_questions` always increment `questionCount`
afterwards, also when the analysis failed. Emits nothing and never raises. -/
def handleGPTResponseAnalysis (o : Oracle) (s : InterviewState) : InterviewState :=
  let s1 := recordAnalysis o s (analysisStageLabel s)
  if s1.currentStage = Stage.jd_questions then { s1 with questionCount := s1.questionCount + 1 }
  else s1

/-- `generateDynamicQuestion`: the backend question, trimmed, with the two
fixed fallbacks (raise, and missing/too-short output). Never raises. -/
def generateDynamicQuestion (o : Oracle) (s : InterviewState) : String :=
  let currentQNum := s.questionCount + 1
  match o.dynQuestion with
  | Except.error _ =>
      "For question " ++ toString currentQNum ++ ", tell me about a relevant project from your experience."
  | Except.ok content =>
      let questionText := jsTrim (content.getD "")
      if questionText = "" ∨ questionText.length < 20 then
        "For question " ++ toString currentQNum ++ ", describe a complex challenge you solved that aligns with the role."
      else questionText

/-- `askNextDynamicQuestion`: send the generated question; a raised send
propagates to the dispatcher catch (no local try). -/
def askNextDynamicQuestion (o : Oracle) (s : InterviewState) (em : Emitter) : HRes :=
  sendActivityAndPush o s em (mkActivity (generateDynamicQuestion o s)) (generateDynamicQuestion o s)

/-! ## Assessment aggregation (`completeInterview`) -/

/-- The stage list iterated by `completeInterview`: `pre_screen` then
`jd_q1 .. jd_q(maxQuestions)`. -/
def stageList (maxQuestions : Nat) : List String :=
  "pre_screen" :: (List.range maxQuestions).map (fun i => "jd_q" ++ toString (i + 1))

/-- `parseInt(state.responses[label ++ key])`: a stored number parses to
itself, everything else (the `N/A` string, a missing key, raw text) is `NaN`,
modelled as `none`. -/
def parseScore (s : InterviewState) (label key : String) : Option Int :=
  match s.responses.lookup (label ++ key) with
  | some (RespVal.num n) => some n
  | _ => none

/-- Clarity score parsed for one stage label. -/
def clarityAt (s : InterviewState) (label : String) : Option Int :=
  parseScore s label "_clarity_score"

/-- Relevance score parsed for one stage label. -/
def relevanceAt (s : InterviewState) (label : String) : Option Int :=
  parseScore s label "_relevance_score"

/-- A stage counts toward the aggregation iff both scores parse. -/
def isValidStageLabel (s : InterviewState) (label : String) : Bool :=
  (clarityAt s label).isSome && (relevanceAt s label).isSome

/-- The labels whose assessments are aggregated. -/
def validStageLabels (s : InterviewState) : List String :=
  (stageList s.maxQuestions).filter (fun l => isValidStageLabel s l)

/-- `validScores` of `completeInterview`. -/
def validScores (s : InterviewState) : Nat :=
  (validStageLabels s).length

/-- `totalClarityScore` of `completeInterview`. -/
def totalClarityScore (s : InterviewState) : Int :=
  (validStageLabels s).foldl (fun acc l => acc + (clarityAt s l).getD 0) 0

/-- `totalRelevanceScore` of `completeInterview`. -/
def totalRelevanceScore (s : InterviewState) : Int :=
  (validStageLabels s).foldl (fun acc l => acc + (relevanceAt s l).getD 0) 0

/-- Round the exact fraction `p / q` (with `q` positive) to the nearest
integer, ties away from zero: the decimal model of JS `toFixed` on the
nonnegative values arising here. -/
def roundHalfAwayFrac (p q : Int) : Int :=
  if 0 ≤ p then Int.fdiv (2 * p + q) (2 * q) else -(Int.fdiv (2 * (-p) + q) (2 * q))

/-- JS `(p / q).toFixed(1)` under the decimal rounding model. -/
def toFixed1Frac (p q : Int) : String :=
  let n := roundHalfAwayFrac (10 * p) q
  let m := n.natAbs
  (if n < 0 then "-" else "") ++ toString (m / 10) ++ "." ++ toString (m % 10)

/-- JS `(p / q).toFixed(0)` under the decimal rounding model. -/
def toFixed0Frac (p q : Int) : String :=
  toString (roundHalfAwayFrac p q)

/-- `avgClarity` of `completeInterview`: `(totalClarityScore / validScores)`
rendered to one decimal, or `N/A` when no stage had both scores. -/
def avgClarity (s : InterviewState) : String :=
  if validScores s > 0 then
    toFixed1Frac (totalClarityScore s) (validScores s : Int)
  else "N/A"

/-- `avgRelevance` of `completeInterview`. -/
def avgRelevance (s : InterviewState) : String :=
  if validScores s > 0 then
    toFixed1Frac (totalRelevanceScore s) (validScores s : Int)
  else "N/A"

/-- `overallScore` of `completeInterview`:
`((totalClarityScore + totalRelevanceScore) / (validScores * 2) / 5 * 100).toFixed(0)`,
the exact fraction written with numerator
`(totalClarityScore + totalRelevanceScore) * 100` over denominator
`validScores * 2 * 5`. -/
def overallScore (s : InterviewState) : String :=
  if validScores s > 0 then
    toFixed0Frac ((totalClarityScore s + totalRelevanceScore s) * 100)
      ((validScores s : Int) * 2 * 5)
  else "N/A"

/-- `clarity || 'N/A'` in the report: `NaN` (unparseable) and `0` are falsy. -/
def renderScore (o : Option Int) : String :=
  match o with
  | some n => if n = 0 then "N/A" else toString n
  | none => "N/A"

/-- The flattened entity list of one report block. -/
def entityListAt (s : InterviewState) (label : String) : String :=
  match s.responses.lookup (label ++ "_entities") with
  | some (RespVal.entities es) =>
      String.intercalate ", " (es.map (fun e => e.text ++ " (" ++ e.entity ++ ")"))
  | _ => "No structured data."

/-- The stored summary of one report block, `|| 'No data.'`. -/
def summaryAt (s : InterviewState) (label : String) : String :=
  match s.responses.lookup (label ++ "_gpt_summary") with
  | some (RespVal.str t) => if t = "" then "No data." else t
  | _ => "No data."

/-- `stage.slice(-1)`: the last character of the stage label. -/
def sliceLast (s : String) : String :=
  String.mk (s.data.drop (s.data.length - 1))

/-- One block of `detailedReport`. -/
def reportBlock (s : InterviewState) (label : String) : String :=
  let header :=
    if label = "pre_screen" then "--- Initial Screening ---"
    else "--- Question " ++ sliceLast label ++ " ---"
  "\n" ++ header ++ "\nSummary: " ++ summaryAt s label
    ++ "\nClarity/Relevance: " ++ renderScore (clarityAt s label) ++ "/"
    ++ renderScore (relevanceAt s label)
    ++ "\nEntities: " ++ entityListAt s label ++ "\n"

/-- `detailedReport` of `completeInterview`. -/
def detailedReport (s : InterviewState) : String :=
  String.join ((stageList s.maxQuestions).map (fun l => reportBlock s l))

/-- `summaryText` of `completeInterview` (the template literal, then
`.trim()`). -/
def summaryText (s : InterviewState) : String :=
  jsTrim ("\nInterview Summary for " ++ strOr s.candidateName "Candidate"
    ++ ":\n\n--- Final Assessment ---\nRole: "
    ++ (match s.jdFileName with
        | some f => let r := replaceFirst f ".txt" ""; if r = "" then "N/A" else r
        | none => "N/A")
    ++ "\nQuestions Answered: " ++ toString s.questionCount
    ++ "\n\nAverage Clarity: **" ++ avgClarity s
    ++ "/5**\nAverage Relevance: **" ++ avgRelevance s
    ++ "/5**\nQualification Score: **" ++ overallScore s
    ++ "%**\n\n" ++ detailedReport s
    ++ "\n\nYour responses will be reviewed by the KPMG hiring team. Thank you!\n        ")

/-- `finalSsml` of `completeInterview`: hand-written markup interpolating the
raw (possibly undefined) candidate name and the overall score. -/
def finalSsml (s : InterviewState) : String :=
  "<speak version='1.0' xmlns='http://www.w3.org/2001/10/synthesis' xml:lang='en-US'>\n            <prosody rate='medium'>\n                Interview completed, "
    ++ interpOpt s.candidateName
    ++ ". \n                Your score is " ++ overallScore s
    ++ " percent.\n                Thank you for your time!\n            </prosody>\n        </speak>"

/-- The final summary activity of `completeInterview`. -/
def finalActivity (s : InterviewState) : Activity :=
  { text := summaryText s, speak := finalSsml s }

/-- `completeInterview`: set the stage to `complete`, send the aggregated
summary, push it to the history and delete the session record. A raised send
propagates (state already marked `complete`, record not deleted). -/
def completeInterview (o : Oracle) (s : InterviewState) (em : Emitter) : CRes :=
  let r := sendActivityAndPush o { s with currentStage := Stage.complete } em
    (finalActivity { s with currentStage := Stage.complete })
    (summaryText { s with currentStage := Stage.complete })
  { state := r.state, em := r.em, threw := r.threw, deleted := !r.threw }

/-! ## Dispatcher and welcome path -/

/-- A send with no history push (the `complete` and unknown-stage branches
send directly). -/
def sendOnlyRes (o : Oracle) (s : InterviewState) (em : Emitter) (a : Activity) : HRes :=
  let sent := trySend o em a
  { state := s, em := sent.1, threw := sent.2 }

/-- The dispatcher's try/catch boundary: a raise escaping the stage handler
is answered by `sendErrorMessage`; otherwise the handler's emissions stand
(and, for the closing branch, its deletion flag). -/
def dispatchResult (r : HRes) (deleted : Bool) : StepRes :=
  if r.threw then
    { state := r.state, out := (emitSafe r.em errorActivity).acts, deleted := false,
      caught := true }
  else { state := r.state, out := r.em.acts, deleted := deleted, caught := false }

/-- The turn-local emitter at dispatch start. -/
def em0 : Emitter := { acts := [], ctr := 0 }

/-- `processUserMessage`: the turn dispatcher. Empty or whitespace-only text
is answered with the re-prompt before any state mutation; otherwise the user
text is pushed to the history and the stage handler runs inside the
dispatcher try. -/
def processUserMessage (o : Oracle) (text : Option String) (s0 : InterviewState) : StepRes :=
  let userText := jsTrim (text.getD "")
  if userText = "" then
    { state := s0, out := [noSpeechActivity], deleted := false, caught := false }
  else
    let s := pushHist s0 Role.user userText
    match s.currentStage with
    | Stage.jd_selection =>
        dispatchResult (handleJDSelection o s em0) false
    | Stage.name_prompt =>
        dispatchResult (handleNameExtraction o s em0) false
    | Stage.pre_screen =>
        let s1 := setResp s "pre_screen_raw_response" (RespVal.str userText)
        let s2 := handleGPTResponseAnalysis o s1
        let s3 := { s2 with currentStage := Stage.jd_questions }
        dispatchResult (askNextDynamicQuestion o s3 em0) false
    | Stage.jd_questions =>
        let s1 := setResp s ("jd_q" ++ toString (s.questionCount + 1) ++ "_raw_response")
          (RespVal.str userText)
        let s2 := handleGPTResponseAnalysis o s1
        if s2.questionCount < s2.maxQuestions then
          dispatchResult (askNextDynamicQuestion o s2 em0) false
        else
          dispatchResult (sendNextQuestion o { s2 with currentStage := Stage.closing } em0) false
    | Stage.closing =>
        let c := completeInterview o s em0
        dispatchResult { state := c.state, em := c.em, threw := c.threw } c.deleted
    | Stage.complete =>
        dispatchResult (sendOnlyRes o s em0 completedNoticeActivity) false
    | Stage.greeting =>
        dispatchResult (sendOnlyRes o s em0 unknownStateActivity) false

/-- `askForJDSelection`: the role-list prompt. -/
def jdSelectionPromptText (jds : List String) : String :=
  let jdList := String.intercalate ", "
    (jds.enum.map (fun p => toString (p.1 + 1) ++ ". " ++ replaceFirst p.2 ".txt" ""))
  "We offer interviews for the following roles: " ++ jdList
    ++ ". Please say the number or the name of the role you are here for."

/-- `sendWelcomeMessage` (the participant-joined path, at session creation):
send the greeting, advance to `jd_selection` and ask for the JD selection.
Modelled without the fault injection (it runs outside the dispatcher try). -/
def sendWelcomeMessage (s : InterviewState) : InterviewState × List Activity :=
  let s1 := pushHist s Role.assistant greetingQuestion
  let s2 := { s1 with currentStage := Stage.jd_selection }
  let questionText := jdSelectionPromptText s2.availableJDs
  let s3 := pushHist s2 Role.assistant questionText
  (s3, [mkActivity greetingQuestion, mkActivity questionText])

/-! ## Session store (`interviewStates`) -/

/-- The fresh session record created by `getUserState`. -/
def initialState (jds : List String) : InterviewState :=
  { candidateName := none, currentStage := Stage.greeting, jdFileName := none,
    jdContent := "", availableJDs := jds, questionCount := 0, maxQuestions := 5,
    responses := [], conversationHistory := [] }

/-- The `interviewStates` map, keyed by candidate identity. -/
abbrev Store := List (String × InterviewState)

/-- Delete a candidate's record. -/
def removeUser (userId : String) (store : Store) : Store :=
  store.filter (fun p => p.1 ≠ userId)

/-- Insert or overwrite a candidate's record. -/
def setUser (userId : String) (s : InterviewState) (store : Store) : Store :=
  (userId, s) :: removeUser userId store

/-- `getUserState`: get the session, creating a fresh one on first contact. -/
def getUserState (jds : List String) (userId : String) (store : Store) :
    InterviewState × Store :=
  match store.lookup userId with
  | some s => (s, store)
  | none => (initialState jds, (userId, initialState jds) :: store)

/-- One inbound turn at store level: get-or-create the session, dispatch the
turn, then write back (or delete, when `completeInterview` ran to the end). -/
def processTurn (jds : List String) (o : Oracle) (userId : String) (text : Option String)
    (store : Store) : Store × List Activity :=
  let gs := getUserState jds userId store
  let r := processUserMessage o text gs.1
  (if r.deleted then removeUser userId gs.2 else setUser userId r.state gs.2, r.out)

/-! ## The stage order and reachable session states -/

/-- Position of a stage in the fixed interview skeleton
`greeting < jd_selection < name_prompt < pre_screen < jd_questions < closing < complete`. -/
def stageIdx : Stage → Nat
  | Stage.greeting => 0
  | Stage.jd_selection => 1
  | Stage.name_prompt => 2
  | Stage.pre_screen => 3
  | Stage.jd_questions => 4
  | Stage.closing => 5
  | Stage.complete => 6

/-- Session states reachable from creation via the participant-joined welcome
(fired at session creation, i.e. in stage `greeting`) and processed inbound
turns. -/
inductive Reachable : InterviewState → Prop
  | init (jds : List String) : Reachable (initialState jds)
  | welcome (s : InterviewState) (h : s.currentStage = Stage.greeting)
      (hr : Reachable s) : Reachable (sendWelcomeMessage s).1
  | step (o : Oracle) (text : Option String) (s : InterviewState)
      (hr : Reachable s) : Reachable (processUserMessage o text s).state

/-- The inductive question-budget invariant: the count never exceeds the
budget, and strictly below the budget outside `closing`/`complete`. -/
def Inv (s : InterviewState) : Prop :=
  s.questionCount ≤ s.maxQuestions ∧
    (s.currentStage ≠ Stage.closing → s.currentStage ≠ Stage.complete →
      s.questionCount < s.maxQuestions)

/-! ## Field-preservation simp lemmas -/

@[simp] lemma pushHist_currentStage (s : InterviewState) (r : Role) (c : String) :
    (pushHist s r c).currentStage = s.currentStage := rfl

@[simp] lemma pushHist_questionCount (s : InterviewState) (r : Role) (c : String) :
    (pushHist s r c).questionCount = s.questionCount := rfl

@[simp] lemma pushHist_maxQuestions (s : InterviewState) (r : Role) (c : String) :
    (pushHist s r c).maxQuestions = s.maxQuestions := rfl

@[simp] lemma pushHist_responses (s : InterviewState) (r : Role) (c : String) :
    (pushHist s r c).responses = s.responses := rfl

@[simp] lemma pushHist_candidateName (s : InterviewState) (r : Role) (c : String) :
    (pushHist s r c).candidateName = s.candidateName := rfl

@[simp] lemma pushHist_jdFileName (s : InterviewState) (r : Role) (c : String) :
    (pushHist s r c).jdFileName = s.jdFileName := rfl

@[simp] lemma pushHist_availableJDs (s : InterviewState) (r : Role) (c : String) :
    (pushHist s r c).availableJDs = s.availableJDs := rfl

@[simp] lemma setResp_currentStage (s : InterviewState) (k : String) (v : RespVal) :
    (setResp s k v).currentStage = s.currentStage := rfl

@[simp] lemma setResp_questionCount (s : InterviewState) (k : String) (v : RespVal) :
    (setResp s k v).questionCount = s.questionCount := rfl

@[simp] lemma setResp_maxQuestions (s : InterviewState) (k : String) (v : RespVal) :
    (setResp s k v).maxQuestions = s.maxQuestions := rfl

@[simp] lemma setResp_responses (s : InterviewState) (k : String) (v : RespVal) :
    (setResp s k v).responses = (k, v) :: s.responses := rfl

@[simp] lemma setResp_conversationHistory (s : InterviewState) (k : String) (v : RespVal) :
    (setResp s k v).conversationHistory = s.conversationHistory := rfl


/-! ## Handler effect lemmas -/

lemma sendActivityAndPush_state (o : Oracle) (s : InterviewState) (em : Emitter)
    (a : Activity) (t : String) :
    (sendActivityAndPush o s em a t).state = s ∨
    (sendActivityAndPush o s em a t).state = pushHist s Role.assistant t := by
  by_cases h : (trySend o em a).2 = true
  · left
    simp [sendActivityAndPush, h]
  · right
    simp [sendActivityAndPush, h]

lemma sendActivityAndPush_stage (o : Oracle) (s : InterviewState) (em : Emitter)
    (a : Activity) (t : String) :
    (sendActivityAndPush o s em a t).state.currentStage = s.currentStage := by
  rcases sendActivityAndPush_state o s em a t with h | h <;> simp [h]

lemma sendActivityAndPush_questionCount (o : Oracle) (s : InterviewState) (em : Emitter)
    (a : Activity) (t : String) :
    (sendActivityAndPush o s em a t).state.questionCount = s.questionCount := by
  rcases sendActivityAndPush_state o s em a t with h | h <;> simp [h]

lemma sendActivityAndPush_maxQuestions (o : Oracle) (s : InterviewState) (em : Emitter)
    (a : Activity) (t : String) :
    (sendActivityAndPush o s em a t).state.maxQuestions = s.maxQuestions := by
  rcases sendActivityAndPush_state o s em a t with h | h <;> simp [h]

lemma sendActivityAndPush_acts (o : Oracle) (s : InterviewState) (em : Emitter)
    (a : Activity) (t : String) :
    (sendActivityAndPush o s em a t).em.acts = em.acts ∨
    (sendActivityAndPush o s em a t).em.acts = em.acts ++ [a] := by
  unfold sendActivityAndPush trySend
  split <;> simp_all

lemma sendActivityAndPush_of_failAtSend_none (o : Oracle) (s : InterviewState) (em : Emitter)
    (a : Activity) (t : String) (h : o.failAtSend = none) :
    sendActivityAndPush o s em a t =
      { state := pushHist s Role.assistant t,
        em := { acts := em.acts ++ [a], ctr := em.ctr + 1 }, threw := false } := by
  unfold sendActivityAndPush trySend
  simp [h]

lemma sendActivityAndPush_threw (o : Oracle) (s : InterviewState) (em : Emitter)
    (a : Activity) (t : String)
    (h : (sendActivityAndPush o s em a t).threw = true) :
    (sendActivityAndPush o s em a t).state = s ∧
    (sendActivityAndPush o s em a t).em.acts = em.acts := by
  unfold sendActivityAndPush trySend at h ⊢
  split at h <;> simp_all

lemma recordAnalysis_stage (o : Oracle) (s : InterviewState) (stage : String) :
    (recordAnalysis o s stage).currentStage = s.currentStage := by
  unfold recordAnalysis
  cases o.analysis <;> simp [setResp]

lemma recordAnalysis_count (o : Oracle) (s : InterviewState) (stage : String) :
    (recordAnalysis o s stage).questionCount = s.questionCount := by
  unfold recordAnalysis
  cases o.analysis <;> simp [setResp]

lemma recordAnalysis_max (o : Oracle) (s : InterviewState) (stage : String) :
    (recordAnalysis o s stage).maxQuestions = s.maxQuestions := by
  unfold recordAnalysis
  cases o.analysis <;> simp [setResp]

lemma handleGPTResponseAnalysis_stage (o : Oracle) (s : InterviewState) :
    (handleGPTResponseAnalysis o s).currentStage = s.currentStage := by
  by_cases h : s.currentStage = Stage.jd_questions <;>
    simp [handleGPTResponseAnalysis, recordAnalysis_stage, h]

lemma handleGPTResponseAnalysis_max (o : Oracle) (s : InterviewState) :
    (handleGPTResponseAnalysis o s).maxQuestions = s.maxQuestions := by
  by_cases h : s.currentStage = Stage.jd_questions <;>
    simp [handleGPTResponseAnalysis, recordAnalysis_stage, recordAnalysis_max, h]

lemma handleGPTResponseAnalysis_count (o : Oracle) (s : InterviewState) :
    (handleGPTResponseAnalysis o s).questionCount =
      (if s.currentStage = Stage.jd_questions then s.questionCount + 1
       else s.questionCount) := by
  by_cases h : s.currentStage = Stage.jd_questions <;>
    simp [handleGPTResponseAnalysis, recordAnalysis_stage, recordAnalysis_count, h]

lemma handleJDSelection_core (o : Oracle) (s : InterviewState) (em : Emitter) :
    ((handleJDSelection o s em).state.currentStage = s.currentStage ∨
     (handleJDSelection o s em).state.currentStage = Stage.name_prompt) ∧
    (handleJDSelection o s em).state.questionCount = s.questionCount ∧
    (handleJDSelection o s em).state.maxQuestions = s.maxQuestions := by
  unfold handleJDSelection withSendErrorCatch
  cases o.selection with
  | error e => simp [emitSafe]
  | ok content =>
      simp only []
      split <;> split <;>
        simp [emitSafe, sendActivityAndPush_stage, sendActivityAndPush_questionCount,
          sendActivityAndPush_maxQuestions]

lemma handleNameExtraction_core (o : Oracle) (s : InterviewState) (em : Emitter) :
    ((handleNameExtraction o s em).state.currentStage = s.currentStage ∨
     (handleNameExtraction o s em).state.currentStage = Stage.pre_screen) ∧
    (handleNameExtraction o s em).state.questionCount = s.questionCount ∧
    (handleNameExtraction o s em).state.maxQuestions = s.maxQuestions := by
  unfold handleNameExtraction sendNameClarification sendNextQuestion
  cases o.nameExtract with
  | error e =>
      exact ⟨Or.inl (sendActivityAndPush_stage o s em _ _),
        sendActivityAndPush_questionCount o s em _ _,
        sendActivityAndPush_maxQuestions o s em _ _⟩
  | ok content =>
      simp only []
      split
      · split <;>
          simp [sendActivityAndPush_stage, sendActivityAndPush_questionCount,
            sendActivityAndPush_maxQuestions]
      · split <;>
          simp [sendActivityAndPush_stage, sendActivityAndPush_questionCount,
            sendActivityAndPush_maxQuestions]

lemma completeInterview_stage (o : Oracle) (s : InterviewState) (em : Emitter) :
    (completeInterview o s em).state.currentStage = Stage.complete := by
  unfold completeInterview
  simpa using sendActivityAndPush_stage o { s with currentStage := Stage.complete } em
    (finalActivity { s with currentStage := Stage.complete })
    (summaryText { s with currentStage := Stage.complete })

lemma completeInterview_counts (o : Oracle) (s : InterviewState) (em : Emitter) :
    (completeInterview o s em).state.questionCount = s.questionCount ∧
    (completeInterview o s em).state.maxQuestions = s.maxQuestions := by
  unfold completeInterview
  constructor
  · simpa using sendActivityAndPush_questionCount o { s with currentStage := Stage.complete } em
      (finalActivity { s with currentStage := Stage.complete })
      (summaryText { s with currentStage := Stage.complete })
  · simpa using sendActivityAndPush_maxQuestions o { s with currentStage := Stage.complete } em
      (finalActivity { s with currentStage := Stage.complete })
      (summaryText { s with currentStage := Stage.complete })


lemma dispatchResult_state (r : HRes) (d : Bool) : (dispatchResult r d).state = r.state := by
  unfold dispatchResult
  split <;> rfl

lemma sendOnlyRes_state (o : Oracle) (s : InterviewState) (em : Emitter) (a : Activity) :
    (sendOnlyRes o s em a).state = s := rfl

lemma askNextDynamicQuestion_stage (o : Oracle) (s : InterviewState) (em : Emitter) :
    (askNextDynamicQuestion o s em).state.currentStage = s.currentStage := by
  unfold askNextDynamicQuestion
  exact sendActivityAndPush_stage o s em _ _

lemma sendNextQuestion_stage (o : Oracle) (s : InterviewState) (em : Emitter) :
    (sendNextQuestion o s em).state.currentStage = s.currentStage := by
  unfold sendNextQuestion
  exact sendActivityAndPush_stage o s em _ _

lemma processUserMessage_stage_mono (o : Oracle) (text : Option String) (s : InterviewState) :
    stageIdx s.currentStage ≤ stageIdx (processUserMessage o text s).state.currentStage := by
  by_cases ht : jsTrim (text.getD "") = ""
  · simp [processUserMessage, ht]
  · cases hs : s.currentStage with
    | greeting =>
        simp [processUserMessage, ht, hs, dispatchResult_state, sendOnlyRes_state]
    | jd_selection =>
        have h := (handleJDSelection_core o (pushHist s Role.user (jsTrim (text.getD ""))) em0).1
        simp only [pushHist_currentStage, hs] at h
        simp only [processUserMessage, ht, if_neg ht, pushHist_currentStage, hs]
        rcases h with h | h <;> simp [dispatchResult_state, h, stageIdx]
    | name_prompt =>
        have h := (handleNameExtraction_core o (pushHist s Role.user (jsTrim (text.getD ""))) em0).1
        simp only [pushHist_currentStage, hs] at h
        simp only [processUserMessage, ht, if_neg ht, pushHist_currentStage, hs]
        rcases h with h | h <;> simp [dispatchResult_state, h, stageIdx]
    | pre_screen =>
        simp [processUserMessage, ht, hs, dispatchResult_state, askNextDynamicQuestion_stage,
          stageIdx]
    | jd_questions =>
        simp only [processUserMessage, ht, if_neg ht, pushHist_currentStage, hs]
        split
        · exact absurd (by assumption) (by simp)
        · split <;>
            simp [dispatchResult_state, askNextDynamicQuestion_stage, sendNextQuestion_stage,
              handleGPTResponseAnalysis_stage, hs, stageIdx]
    | closing =>
        simp [processUserMessage, ht, hs, dispatchResult_state, completeInterview_stage, stageIdx]
    | complete =>
        simp [processUserMessage, ht, hs, dispatchResult_state, sendOnlyRes_state, stageIdx]

lemma processUserMessage_complete_terminal (o : Oracle) (text : Option String)
    (s : InterviewState) (h : s.currentStage = Stage.complete) :
    (processUserMessage o text s).state.currentStage = Stage.complete := by
  by_cases ht : jsTrim (text.getD "") = ""
  · simp [processUserMessage, ht, h]
  · simp [processUserMessage, ht, h, dispatchResult_state, sendOnlyRes_state]

lemma askNextDynamicQuestion_counts (o : Oracle) (s : InterviewState) (em : Emitter) :
    (askNextDynamicQuestion o s em).state.questionCount = s.questionCount ∧
    (askNextDynamicQuestion o s em).state.maxQuestions = s.maxQuestions := by
  unfold askNextDynamicQuestion
  exact ⟨sendActivityAndPush_questionCount o s em _ _, sendActivityAndPush_maxQuestions o s em _ _⟩

lemma sendNextQuestion_counts (o : Oracle) (s : InterviewState) (em : Emitter) :
    (sendNextQuestion o s em).state.questionCount = s.questionCount ∧
    (sendNextQuestion o s em).state.maxQuestions = s.maxQuestions := by
  unfold sendNextQuestion
  exact ⟨sendActivityAndPush_questionCount o s em _ _, sendActivityAndPush_maxQuestions o s em _ _⟩

lemma initialState_inv (jds : List String) : Inv (initialState jds) := by
  constructor
  · simp [initialState]
  · intro _ _
    simp [initialState]

lemma sendWelcomeMessage_inv (s : InterviewState) (h : Inv s)
    (hg : s.currentStage = Stage.greeting) : Inv (sendWelcomeMessage s).1 := by
  have hlt : s.questionCount < s.maxQuestions := h.2 (by simp [hg]) (by simp [hg])
  constructor
  · simpa [sendWelcomeMessage, pushHist] using Nat.le_of_lt hlt
  · intro _ _
    simpa [sendWelcomeMessage, pushHist] using hlt

lemma processUserMessage_inv (o : Oracle) (text : Option String) (s : InterviewState)
    (h : Inv s) : Inv (processUserMessage o text s).state := by
  by_cases ht : jsTrim (text.getD "") = ""
  · simpa [processUserMessage, ht] using h
  · cases hs : s.currentStage with
    | greeting =>
        have hlt : s.questionCount < s.maxQuestions := h.2 (by simp [hs]) (by simp [hs])
        constructor <;>
          simp [processUserMessage, ht, hs, dispatchResult_state, sendOnlyRes_state,
            Nat.le_of_lt hlt, hlt]
    | complete =>
        have hle : s.questionCount ≤ s.maxQuestions := h.1
        constructor
        · simpa [processUserMessage, ht, hs, dispatchResult_state, sendOnlyRes_state] using hle
        · intro _ hc
          simp [processUserMessage, ht, hs, dispatchResult_state, sendOnlyRes_state] at hc
    | jd_selection =>
        have hlt : s.questionCount < s.maxQuestions := h.2 (by simp [hs]) (by simp [hs])
        have hcore := handleJDSelection_core o (pushHist s Role.user (jsTrim (text.getD ""))) em0
        simp only [pushHist_currentStage, pushHist_questionCount, pushHist_maxQuestions, hs]
          at hcore
        constructor
        · simp only [processUserMessage, if_neg ht, pushHist_currentStage, hs,
            dispatchResult_state]
          rw [hcore.2.1, hcore.2.2]
          exact Nat.le_of_lt hlt
        · intro _ _
          simp only [processUserMessage, if_neg ht, pushHist_currentStage, hs,
            dispatchResult_state]
          rw [hcore.2.1, hcore.2.2]
          exact hlt
    | name_prompt =>
        have hlt : s.questionCount < s.maxQuestions := h.2 (by simp [hs]) (by simp [hs])
        have hcore := handleNameExtraction_core o (pushHist s Role.user (jsTrim (text.getD ""))) em0
        simp only [pushHist_currentStage, pushHist_questionCount, pushHist_maxQuestions, hs]
          at hcore
        constructor
        · simp only [processUserMessage, if_neg ht, pushHist_currentStage, hs,
            dispatchResult_state]
          rw [hcore.2.1, hcore.2.2]
          exact Nat.le_of_lt hlt
        · intro _ _
          simp only [processUserMessage, if_neg ht, pushHist_currentStage, hs,
            dispatchResult_state]
          rw [hcore.2.1, hcore.2.2]
          exact hlt
    | pre_screen =>
        have hlt : s.questionCount < s.maxQuestions := h.2 (by simp [hs]) (by simp [hs])
        constructor <;>
          · simp [processUserMessage, ht, hs, dispatchResult_state,
              askNextDynamicQuestion_counts, handleGPTResponseAnalysis_count,
              handleGPTResponseAnalysis_max]
            first
            | exact Nat.le_of_lt hlt
            | (intro _ _ ; exact hlt)
    | jd_questions =>
        have hlt : s.questionCount < s.maxQuestions := h.2 (by simp [hs]) (by simp [hs])
        simp only [processUserMessage, if_neg ht, pushHist_currentStage, hs]
        split
        next hcnt =>
          constructor
          · simp only [dispatchResult_state]
            rw [(askNextDynamicQuestion_counts o _ em0).1,
              (askNextDynamicQuestion_counts o _ em0).2]
            exact Nat.le_of_lt hcnt
          · intro _ _
            simp only [dispatchResult_state]
            rw [(askNextDynamicQuestion_counts o _ em0).1,
              (askNextDynamicQuestion_counts o _ em0).2]
            exact hcnt
        next hcnt =>
          constructor
          · simp only [dispatchResult_state]
            rw [(sendNextQuestion_counts o _ em0).1, (sendNextQuestion_counts o _ em0).2]
            simp only [handleGPTResponseAnalysis_count, handleGPTResponseAnalysis_max,
              setResp_currentStage, setResp_questionCount, setResp_maxQuestions,
              pushHist_currentStage, pushHist_questionCount, pushHist_maxQuestions, hs, if_pos rfl]
            simp only [if_pos]
            omega
          · intro hc _
            simp only [dispatchResult_state] at hc
            rw [sendNextQuestion_stage] at hc
            simp at hc
    | closing =>
        have hle : s.questionCount ≤ s.maxQuestions := h.1
        constructor
        · simp only [processUserMessage, if_neg ht, pushHist_currentStage, hs,
            dispatchResult_state]
          rw [(completeInterview_counts o _ em0).1, (completeInterview_counts o _ em0).2]
          simpa using hle
        · intro _ hc
          simp only [processUserMessage, if_neg ht, pushHist_currentStage, hs,
            dispatchResult_state] at hc
          rw [completeInterview_stage] at hc
          simp at hc

lemma reachable_inv (s : InterviewState) (h : Reachable s) : Inv s := by
  induction h with
  | init jds => exact initialState_inv jds
  | welcome t hg _ ih => exact sendWelcomeMessage_inv t ih hg
  | step o text t _ ih => exact processUserMessage_inv o text t ih

/-! ## Concrete execution used by witnesses -/

/-- A fully successful analysis payload for witness runs. -/
def wAnalysis : GptAnalysis :=
  { Summary := some "Clear and relevant answer.", ClarityScore := some 4,
    RelevanceScore := some 5, ExtractedEntities := some [] }

/-- A fully successful oracle for witness runs. -/
def wOracle : Oracle :=
  { selection := Except.ok (some "a.txt"), nameExtract := Except.ok (some "John Smith"),
    analysis := Except.ok wAnalysis,
    dynQuestion := Except.ok (some "Describe a challenging project you delivered recently, please?"),
    jdFetch := Except.ok "Role description text", failAtSend := none }

def wS0 : InterviewState := initialState ["a.txt", "b.txt"]

def wS1 : InterviewState := (sendWelcomeMessage wS0).1

def wS2 : InterviewState := (processUserMessage wOracle (some "the first role") wS1).state

def wS3 : InterviewState := (processUserMessage wOracle (some "I am John Smith") wS2).state

def wS4 : InterviewState := (processUserMessage wOracle (some "my background") wS3).state

def wS5 : InterviewState := (processUserMessage wOracle (some "answer one") wS4).state

def wS6 : InterviewState := (processUserMessage wOracle (some "answer two") wS5).state

def wS7 : InterviewState := (processUserMessage wOracle (some "answer three") wS6).state

def wS8 : InterviewState := (processUserMessage wOracle (some "answer four") wS7).state

lemma wS8_reachable : Reachable wS8 :=
  Reachable.step wOracle (some "answer four") wS7
    (Reachable.step wOracle (some "answer three") wS6
      (Reachable.step wOracle (some "answer two") wS5
        (Reachable.step wOracle (some "answer one") wS4
          (Reachable.step wOracle (some "my background") wS3
            (Reachable.step wOracle (some "I am John Smith") wS2
              (Reachable.step wOracle (some "the first role") wS1
                (Reachable.welcome wS0 rfl (Reachable.init ["a.txt", "b.txt"]))))))))

/-! ## Claim theorems -/

/-- C1: in every reachable session, `questionCount` never exceeds
`maxQuestions`; and when the budget is reached as a `jd_questions` turn is
processed (the counter after its increment meets `maxQuestions`), that turn
moves the session to `closing` instead of asking another dynamic question. -/
theorem question_budget_invariant (s : InterviewState) (hr : Reachable s) :
    s.questionCount ≤ s.maxQuestions ∧
    (∀ (o : Oracle) (text : Option String),
      s.currentStage = Stage.jd_questions →
      s.maxQuestions ≤ s.questionCount + 1 →
      jsTrim (text.getD "") ≠ "" →
      (processUserMessage o text s).state.currentStage = Stage.closing) := by
  refine ⟨(reachable_inv s hr).1, ?_⟩
  intro o text hs hmax ht
  simp only [processUserMessage, if_neg ht, pushHist_currentStage, hs]
  split
  next hcnt =>
    exfalso
    simp only [handleGPTResponseAnalysis_count, handleGPTResponseAnalysis_max,
      setResp_currentStage, setResp_questionCount, setResp_maxQuestions,
      pushHist_currentStage, pushHist_questionCount, pushHist_maxQuestions, hs,
      if_pos rfl] at hcnt
    simp at hcnt
    omega
  next hcnt =>
    simp only [dispatchResult_state]
    rw [sendNextQuestion_stage]

/-- C1 witness: after four answered dynamic questions (count 4 of budget 5)
the next processed `jd_questions` turn lands in `closing`. -/
theorem question_budget_invariant_witness :
    wS8.questionCount ≤ wS8.maxQuestions ∧
    (processUserMessage wOracle (some "final answer") wS8).state.currentStage = Stage.closing := by
  have h := question_budget_invariant wS8 wS8_reachable
  exact ⟨h.1, h.2 wOracle (some "final answer") (by decide) (by decide) (by decide)⟩

/-- C2: a processed inbound turn never moves the stage backward along
`greeting < jd_selection < name_prompt < pre_screen < jd_questions < closing
< complete`, and `complete` is terminal. -/
theorem stage_monotone_forward (o : Oracle) (text : Option String) (s : InterviewState) :
    stageIdx s.currentStage ≤ stageIdx (processUserMessage o text s).state.currentStage ∧
    (s.currentStage = Stage.complete →
      (processUserMessage o text s).state.currentStage = Stage.complete) :=
  ⟨processUserMessage_stage_mono o text s, processUserMessage_complete_terminal o text s⟩

/-- C2 witness at a completed session. -/
theorem stage_monotone_forward_witness :
    stageIdx { wS0 with currentStage := Stage.complete }.currentStage ≤
      stageIdx (processUserMessage wOracle (some "hello")
        { wS0 with currentStage := Stage.complete }).state.currentStage ∧
    (processUserMessage wOracle (some "hello")
      { wS0 with currentStage := Stage.complete }).state.currentStage = Stage.complete := by
  have h := stage_monotone_forward wOracle (some "hello") { wS0 with currentStage := Stage.complete }
  exact ⟨h.1, h.2 rfl⟩

/-- C6: an inbound turn whose text is empty or whitespace-only leaves the
session record untouched and emits exactly the one no-speech re-prompt. -/
theorem empty_text_frame (o : Oracle) (text : Option String) (s : InterviewState)
    (h : jsTrim (text.getD "") = "") :
    (processUserMessage o text s).state = s ∧
    (processUserMessage o text s).out = [noSpeechActivity] ∧
    (processUserMessage o text s).deleted = false := by
  refine ⟨?_, ?_, ?_⟩ <;> simp [processUserMessage, h]

/-- C6 witness: a whitespace-only utterance in `jd_selection`. -/
theorem empty_text_frame_witness :
    (processUserMessage wOracle (some "   ") wS1).state = wS1 ∧
    (processUserMessage wOracle (some "   ") wS1).out = [noSpeechActivity] ∧
    (processUserMessage wOracle (some "   ") wS1).deleted = false :=
  empty_text_frame wOracle (some "   ") wS1 (by decide)

/-! ## C3: the aggregation metrics -/

lemma roundHalfAwayFrac_eq_round (p q : Int) (hp : 0 ≤ p) (hq : 0 < q) :
    roundHalfAwayFrac p q = round ((p : ℚ) / (q : ℚ)) := by
  rw [round_eq]
  unfold roundHalfAwayFrac
  rw [if_pos hp]
  rw [Int.fdiv_eq_ediv _ (by omega)]
  have h2q : ((2 * q).toNat : Int) = 2 * q := Int.toNat_of_nonneg (by omega)
  have h2qQ : (((2 * q).toNat : ℕ) : ℚ) = 2 * (q : ℚ) := by
    have hc := congrArg (fun z : Int => (z : ℚ)) h2q
    push_cast at hc
    simpa using hc
  have hq0 : (q : ℚ) ≠ 0 := by
    have : (0 : ℚ) < (q : ℚ) := by exact_mod_cast hq
    linarith
  have hcast : (p : ℚ) / (q : ℚ) + 1 / 2 =
      ((2 * p + q : Int) : ℚ) / (((2 * q).toNat : ℕ) : ℚ) := by
    rw [h2qQ]
    push_cast
    field_simp
    ring
  rw [hcast, Rat.floor_intCast_div_natCast]
  rw [h2q]

/-- A session record holding exactly the two parseable assessments
`(clarity, relevance) = (4, 5)` (pre-screen) and `(2, 3)` (first dynamic
question). -/
def exAgg : InterviewState :=
  { initialState [] with responses :=
      [("pre_screen_clarity_score", RespVal.num 4),
       ("pre_screen_relevance_score", RespVal.num 5),
       ("jd_q1_clarity_score", RespVal.num 2),
       ("jd_q1_relevance_score", RespVal.num 3)] }

/-- C3: the aggregation at interview completion renders all three metrics as
`N/A` when no stage has both scores parseable (no division is attempted);
with a positive valid count the averages are the score sums over the valid
count to one decimal and the qualification score is
`round((sumClarity+sumRelevance)/(validCount*2*5)*100)`; and on exactly the
two assessments (4,5) and (2,3) it reports 3.0, 4.0 and 70. -/
theorem aggregation_metrics (s : InterviewState) :
    (validScores s = 0 →
      avgClarity s = "N/A" ∧ avgRelevance s = "N/A" ∧ overallScore s = "N/A") ∧
    (0 < validScores s → 0 ≤ totalClarityScore s + totalRelevanceScore s →
      avgClarity s = toFixed1Frac (totalClarityScore s) (validScores s : Int) ∧
      avgRelevance s = toFixed1Frac (totalRelevanceScore s) (validScores s : Int) ∧
      overallScore s = toString (round
        (((totalClarityScore s : ℚ) + (totalRelevanceScore s : ℚ)) /
          ((validScores s : ℚ) * 2 * 5) * 100))) ∧
    (validScores exAgg = 2 ∧ avgClarity exAgg = "3.0" ∧ avgRelevance exAgg = "4.0" ∧
      overallScore exAgg = "70") := by
  refine ⟨?_, ?_, by decide, by decide, by decide, by decide⟩
  · intro hv
    simp [avgClarity, avgRelevance, overallScore, hv]
  · intro hv hsum
    refine ⟨by simp [avgClarity, hv], by simp [avgRelevance, hv], ?_⟩
    have hq : (0 : Int) < (validScores s : Int) * 2 * 5 := by
      have : (0 : Int) < (validScores s : Int) := by exact_mod_cast hv
      omega
    rw [overallScore, if_pos hv, toFixed0Frac,
      roundHalfAwayFrac_eq_round _ _ (by omega) hq]
    congr 1
    congr 1
    push_cast
    have hvq : ((validScores s : ℚ)) ≠ 0 := by
      have : (0 : ℚ) < (validScores s : ℚ) := by exact_mod_cast hv
      linarith
    field_simp
    try ring

/-- C3 witness: the zero-valid-count case at a fresh session, and the
positive case at the two-assessment example. -/
theorem aggregation_metrics_witness :
    (avgClarity (initialState []) = "N/A" ∧ avgRelevance (initialState []) = "N/A" ∧
      overallScore (initialState []) = "N/A") ∧
    (avgClarity exAgg = toFixed1Frac (totalClarityScore exAgg) (validScores exAgg : Int) ∧
      avgRelevance exAgg = toFixed1Frac (totalRelevanceScore exAgg) (validScores exAgg : Int) ∧
      overallScore exAgg = toString (round
        (((totalClarityScore exAgg : ℚ) + (totalRelevanceScore exAgg : ℚ)) /
          ((validScores exAgg : ℚ) * 2 * 5) * 100))) := by
  refine ⟨(aggregation_metrics (initialState [])).1 (by decide),
    (aggregation_metrics exAgg).2.1 (by decide) (by decide)⟩

/-! ## C4: degraded assessment on analysis failure -/

lemma string_append_right_inj (a b c : String) (h : a ++ b = a ++ c) : b = c := by
  rcases b with ⟨bd⟩
  rcases c with ⟨cd⟩
  have hd := congrArg String.data h
  simp [String.data_append] at hd
  simp [hd]

lemma append_beq_false (a : String) {b c : String} (h : b ≠ c) :
    ((a ++ b) == (a ++ c)) = false := by
  rw [beq_eq_false_iff_ne]
  intro hc
  exact h (string_append_right_inj a b c hc)

lemma sendActivityAndPush_responses (o : Oracle) (s : InterviewState) (em : Emitter)
    (a : Activity) (t : String) :
    (sendActivityAndPush o s em a t).state.responses = s.responses := by
  rcases sendActivityAndPush_state o s em a t with h | h <;> simp [h]

lemma errorActivity_ne_mkActivity (q : String) : errorActivity ≠ mkActivity q := by
  intro h
  have htext := congrArg Activity.text h
  have hspeak := congrArg Activity.speak h
  simp only [errorActivity, mkActivity] at htext hspeak
  rw [← htext] at hspeak
  exact absurd hspeak (by decide)

/-- The state and oracle of the C4 counterexample run: a `jd_questions` turn
whose assessment call fails. -/
def cex4State : InterviewState :=
  { initialState ["a.txt"] with currentStage := Stage.jd_questions }

def cex4Oracle : Oracle :=
  { wOracle with analysis := Except.error () }

/-- C4 counterexample: on an analysis failure the recorded summary is the
string `Analysis failed.` with a trailing period, so it is not equal to the
claimed string `Analysis failed`. -/
theorem analysis_failure_summary_counterexample :
    (processUserMessage cex4Oracle (some "my answer") cex4State).state.responses.lookup
        "jd_q1_gpt_summary" = some (RespVal.str "Analysis failed.") ∧
    (processUserMessage cex4Oracle (some "my answer") cex4State).state.responses.lookup
        "jd_q1_gpt_summary" ≠ some (RespVal.str "Analysis failed") := by
  constructor <;> decide

/-- C4 (amended): when the assessment call raises or its JSON does not parse
during a `jd_questions` turn, the stage's record is degraded — summary
`"Analysis failed."` (with a trailing period), empty entity list, both score
keys left unset — no error activity reaches the candidate, and
`questionCount` still increments. -/
theorem analysis_failure_degraded (o : Oracle) (text : Option String) (s : InterviewState)
    (herr : o.analysis = Except.error ())
    (ht : jsTrim (text.getD "") ≠ "")
    (hs : s.currentStage = Stage.jd_questions) :
    (processUserMessage o text s).state.responses.lookup
        ("jd_q" ++ toString (s.questionCount + 1) ++ "_gpt_summary") =
      some (RespVal.str "Analysis failed.") ∧
    (processUserMessage o text s).state.responses.lookup
        ("jd_q" ++ toString (s.questionCount + 1) ++ "_entities") =
      some (RespVal.entities []) ∧
    (s.responses.lookup ("jd_q" ++ toString (s.questionCount + 1) ++ "_clarity_score") = none →
      (processUserMessage o text s).state.responses.lookup
        ("jd_q" ++ toString (s.questionCount + 1) ++ "_clarity_score") = none) ∧
    (s.responses.lookup ("jd_q" ++ toString (s.questionCount + 1) ++ "_relevance_score") = none →
      (processUserMessage o text s).state.responses.lookup
        ("jd_q" ++ toString (s.questionCount + 1) ++ "_relevance_score") = none) ∧
    (processUserMessage o text s).state.questionCount = s.questionCount + 1 ∧
    (o.failAtSend = none → errorActivity ∉ (processUserMessage o text s).out) := by
  have hresp : (processUserMessage o text s).state.responses =
      ("jd_q" ++ toString (s.questionCount + 1) ++ "_entities", RespVal.entities []) ::
      ("jd_q" ++ toString (s.questionCount + 1) ++ "_gpt_summary",
        RespVal.str "Analysis failed.") ::
      ("jd_q" ++ toString (s.questionCount + 1) ++ "_raw_response",
        RespVal.str (jsTrim (text.getD ""))) :: s.responses := by
    simp only [processUserMessage, if_neg ht, pushHist_currentStage, hs]
    split <;>
      simp [dispatchResult_state, askNextDynamicQuestion, sendNextQuestion,
        sendActivityAndPush_responses, handleGPTResponseAnalysis, recordAnalysis, herr,
        analysisStageLabel, hs, setResp, pushHist]
  have hcount : (processUserMessage o text s).state.questionCount = s.questionCount + 1 := by
    simp only [processUserMessage, if_neg ht, pushHist_currentStage, hs]
    split
    · rw [dispatchResult_state, (askNextDynamicQuestion_counts o _ em0).1]
      simp [handleGPTResponseAnalysis_count, hs]
    · rw [dispatchResult_state, (sendNextQuestion_counts o _ em0).1]
      simp [handleGPTResponseAnalysis_count, hs]
  refine ⟨?_, ?_, ?_, ?_, hcount, ?_⟩
  · rw [hresp]
    simp [List.lookup, append_beq_false _ (show "_gpt_summary" ≠ "_entities" by decide)]
  · rw [hresp]
    simp [List.lookup]
  · intro habs
    rw [hresp]
    simp [List.lookup, append_beq_false _ (show "_clarity_score" ≠ "_entities" by decide),
      append_beq_false _ (show "_clarity_score" ≠ "_gpt_summary" by decide),
      append_beq_false _ (show "_clarity_score" ≠ "_raw_response" by decide), habs]
  · intro habs
    rw [hresp]
    simp [List.lookup, append_beq_false _ (show "_relevance_score" ≠ "_entities" by decide),
      append_beq_false _ (show "_relevance_score" ≠ "_gpt_summary" by decide),
      append_beq_false _ (show "_relevance_score" ≠ "_raw_response" by decide), habs]
  · intro hfail
    have hsp := fun s em a t => sendActivityAndPush_of_failAtSend_none o s em a t hfail
    simp only [processUserMessage, if_neg ht, pushHist_currentStage, hs]
    split <;>
      simp [askNextDynamicQuestion, sendNextQuestion, hsp, dispatchResult, em0,
        (errorActivity_ne_mkActivity _)]

/-- C4 witness: a concrete failed-analysis `jd_questions` turn with the
degraded record, score keys unset and the counter incremented. -/
theorem analysis_failure_degraded_witness :
    (processUserMessage cex4Oracle (some "an answer") cex4State).state.responses.lookup
        ("jd_q" ++ toString (cex4State.questionCount + 1) ++ "_gpt_summary") =
      some (RespVal.str "Analysis failed.") ∧
    (processUserMessage cex4Oracle (some "an answer") cex4State).state.responses.lookup
        ("jd_q" ++ toString (cex4State.questionCount + 1) ++ "_clarity_score") = none ∧
    (processUserMessage cex4Oracle (some "an answer") cex4State).state.questionCount =
      cex4State.questionCount + 1 ∧
    errorActivity ∉ (processUserMessage cex4Oracle (some "an answer") cex4State).out := by
  have h := analysis_failure_degraded cex4Oracle (some "an answer") cex4State rfl
    (by decide) rfl
  exact ⟨h.1, h.2.2.1 (by decide), h.2.2.2.2.1, h.2.2.2.2.2 rfl⟩

/-! ## C5: JD-selection validation -/

lemma sendActivityAndPush_jdFileName (o : Oracle) (s : InterviewState) (em : Emitter)
    (a : Activity) (t : String) :
    (sendActivityAndPush o s em a t).state.jdFileName = s.jdFileName := by
  rcases sendActivityAndPush_state o s em a t with h | h <;> simp [h]

lemma handleJDSelection_error (o : Oracle) (s : InterviewState) (em : Emitter)
    (hsel : o.selection = Except.error ()) :
    handleJDSelection o s em = { state := s, em := emitSafe em errorActivity, threw := false } := by
  simp [handleJDSelection, hsel]

lemma handleJDSelection_ok_accept (o : Oracle) (content : Option String) (s : InterviewState)
    (em : Emitter) (hsel : o.selection = Except.ok content)
    (hc : jsTrim (content.getD "") ≠ "" ∧ jsTrim (content.getD "") ≠ "N/A" ∧
      s.availableJDs.contains (jsTrim (content.getD ""))) :
    (handleJDSelection o s em).state.currentStage = Stage.name_prompt ∧
    (handleJDSelection o s em).state.jdFileName = some (jsTrim (content.getD "")) := by
  simp only [handleJDSelection, hsel, withSendErrorCatch]
  rw [if_pos hc]
  split <;>
    simp [sendActivityAndPush_stage, sendActivityAndPush_jdFileName]

lemma handleJDSelection_ok_reject (o : Oracle) (content : Option String) (s : InterviewState)
    (em : Emitter) (hsel : o.selection = Except.ok content)
    (hc : ¬(jsTrim (content.getD "") ≠ "" ∧ jsTrim (content.getD "") ≠ "N/A" ∧
      s.availableJDs.contains (jsTrim (content.getD "")))) :
    (handleJDSelection o s em).state.currentStage = s.currentStage ∧
    (handleJDSelection o s em).state.jdFileName = s.jdFileName ∧
    (o.failAtSend = none →
      (handleJDSelection o s em).em.acts =
        em.acts ++ [mkActivity (jdRepromptText s.availableJDs.length)] ∧
      (handleJDSelection o s em).threw = false) := by
  simp only [handleJDSelection, hsel, withSendErrorCatch]
  rw [if_neg hc]
  refine ⟨?_, ?_, ?_⟩
  · split <;> simp [sendActivityAndPush_stage, sendActivityAndPush_jdFileName]
  · split <;> simp [sendActivityAndPush_stage, sendActivityAndPush_jdFileName]
  · intro hfail
    rw [sendActivityAndPush_of_failAtSend_none _ _ _ _ _ hfail]
    simp

/-- The state and oracle of the C5 counterexample run: a `jd_selection` turn
whose resolution call raises. -/
def cex5State : InterviewState :=
  { initialState ["a.txt", "b.txt"] with currentStage := Stage.jd_selection }

def cex5Oracle : Oracle :=
  { wOracle with selection := Except.error () }

set_option maxRecDepth 8192 in
/-- C5 counterexample: when the selection-resolution call fails (raises), the
emitted message is the generic technical-difficulties text — which does not
contain the phrase naming the selection range — and the range re-prompt for
the two available roles is not emitted, contradicting the claim that a
re-prompt mentioning the range 1..availableJDs.length is emitted whenever
the resolution does not produce a valid value. -/
theorem jd_selection_reprompt_counterexample :
    (processUserMessage cex5Oracle (some "the first role") cex5State).out = [errorActivity] ∧
    listFindPat "between 1 and".data errorActivity.text.data = none ∧
    mkActivity (jdRepromptText 2) ∉
      (processUserMessage cex5Oracle (some "the first role") cex5State).out := by
  refine ⟨by decide, by decide, by decide⟩

/-- C5 (amended): in stage `jd_selection`, a resolved value is accepted
exactly when it is non-empty, not the `N/A` sentinel, and contained in
`availableJDs` — acceptance stores the file name and advances to
`name_prompt`; any other returned value leaves the stage and stored id
unchanged and (absent send faults) emits exactly the re-prompt naming the
range `1..availableJDs.length`; a raised resolution call also leaves the
stage and stored id unchanged but emits the generic error message instead of
the range re-prompt. -/
theorem jd_selection_strict_validation (o : Oracle) (text : Option String)
    (s : InterviewState) (ht : jsTrim (text.getD "") ≠ "")
    (hs : s.currentStage = Stage.jd_selection) :
    (∀ content, o.selection = Except.ok content →
      ((jsTrim (content.getD "") ≠ "" ∧ jsTrim (content.getD "") ≠ "N/A" ∧
          s.availableJDs.contains (jsTrim (content.getD "")) →
        (processUserMessage o text s).state.currentStage = Stage.name_prompt ∧
        (processUserMessage o text s).state.jdFileName = some (jsTrim (content.getD ""))) ∧
       (¬(jsTrim (content.getD "") ≠ "" ∧ jsTrim (content.getD "") ≠ "N/A" ∧
          s.availableJDs.contains (jsTrim (content.getD ""))) →
        (processUserMessage o text s).state.currentStage = Stage.jd_selection ∧
        (processUserMessage o text s).state.jdFileName = s.jdFileName ∧
        (o.failAtSend = none →
          (processUserMessage o text s).out =
            [mkActivity (jdRepromptText s.availableJDs.length)])))) ∧
    (o.selection = Except.error () →
      (processUserMessage o text s).state.currentStage = Stage.jd_selection ∧
      (processUserMessage o text s).state.jdFileName = s.jdFileName ∧
      (processUserMessage o text s).out = [errorActivity]) := by
  constructor
  · intro content hsel
    constructor
    · intro hc
      have h := handleJDSelection_ok_accept o content
        (pushHist s Role.user (jsTrim (text.getD ""))) em0 hsel (by simpa using hc)
      simp only [processUserMessage, if_neg ht, pushHist_currentStage, hs, dispatchResult_state]
      exact ⟨h.1, by simpa using h.2⟩
    · intro hc
      have h := handleJDSelection_ok_reject o content
        (pushHist s Role.user (jsTrim (text.getD ""))) em0 hsel (by simpa using hc)
      refine ⟨?_, ?_, ?_⟩
      · simp only [processUserMessage, if_neg ht, pushHist_currentStage, hs, dispatchResult_state]
        simpa [hs] using h.1
      · simp only [processUserMessage, if_neg ht, pushHist_currentStage, hs, dispatchResult_state]
        simpa using h.2.1
      · intro hfail
        rcases h.2.2 hfail with ⟨hacts, hthrew⟩
        simp only [processUserMessage, if_neg ht, pushHist_currentStage, hs, dispatchResult,
          hthrew]
        simpa [em0] using hacts
  · intro hsel
    have h := handleJDSelection_error o (pushHist s Role.user (jsTrim (text.getD ""))) em0 hsel
    simp only [processUserMessage, if_neg ht, pushHist_currentStage, hs, dispatchResult, h]
    simp [emitSafe, em0, hs]

set_option maxRecDepth 8192 in
/-- C5 witness: with roles `a.txt`, `b.txt`, a resolved value `c.txt` outside
the valid set is rejected — stage stays `jd_selection`, nothing stored, and
the re-prompt names the range 1..2. -/
theorem jd_selection_strict_validation_witness :
    (processUserMessage { wOracle with selection := Except.ok (some "c.txt") }
        (some "the other role") cex5State).state.currentStage = Stage.jd_selection ∧
    (processUserMessage { wOracle with selection := Except.ok (some "c.txt") }
        (some "the other role") cex5State).state.jdFileName = none ∧
    (processUserMessage { wOracle with selection := Except.ok (some "c.txt") }
        (some "the other role") cex5State).out = [mkActivity (jdRepromptText 2)] := by
  have h := (jd_selection_strict_validation { wOracle with selection := Except.ok (some "c.txt") }
    (some "the other role") cex5State (by decide) rfl).1 (some "c.txt") rfl
  have h2 := h.2 (by decide)
  exact ⟨h2.1, h2.2.1, h2.2.2 rfl⟩

/-! ## C7: the dispatcher exception boundary -/

lemma dispatchResult_caught (r : HRes) (d : Bool)
    (h : (dispatchResult r d).caught = true) :
    (dispatchResult r d).out.getLast? = some errorActivity ∧
    (dispatchResult r d).deleted = false := by
  unfold dispatchResult at h ⊢
  split at h <;> simp_all [emitSafe]

/-- C7 (amended): any exception escaping a stage handler is caught at the
dispatcher boundary — the turn produces a result (it does not propagate), the
last emitted activity is the generic technical-difficulties message, and the
session record is not deleted. The session state, however, keeps the
mutations made before the fault (see the counterexample), so the turn is not
atomic. -/
theorem dispatcher_exception_boundary (o : Oracle) (text : Option String)
    (s : InterviewState) (h : (processUserMessage o text s).caught = true) :
    (processUserMessage o text s).out.getLast? = some errorActivity ∧
    (processUserMessage o text s).deleted = false := by
  by_cases ht : jsTrim (text.getD "") = ""
  · simp [processUserMessage, ht] at h
  · cases hs : s.currentStage with
    | jd_questions =>
        simp only [processUserMessage, if_neg ht, pushHist_currentStage, hs] at h ⊢
        split at h
        · rw [if_pos (by assumption)]
          exact dispatchResult_caught _ _ h
        · rw [if_neg (by assumption)]
          exact dispatchResult_caught _ _ h
    | greeting =>
        simp only [processUserMessage, if_neg ht, pushHist_currentStage, hs] at h ⊢
        exact dispatchResult_caught _ _ h
    | jd_selection =>
        simp only [processUserMessage, if_neg ht, pushHist_currentStage, hs] at h ⊢
        exact dispatchResult_caught _ _ h
    | name_prompt =>
        simp only [processUserMessage, if_neg ht, pushHist_currentStage, hs] at h ⊢
        exact dispatchResult_caught _ _ h
    | pre_screen =>
        simp only [processUserMessage, if_neg ht, pushHist_currentStage, hs] at h ⊢
        exact dispatchResult_caught _ _ h
    | closing =>
        simp only [processUserMessage, if_neg ht, pushHist_currentStage, hs] at h ⊢
        exact dispatchResult_caught _ _ h
    | complete =>
        simp only [processUserMessage, if_neg ht, pushHist_currentStage, hs] at h ⊢
        exact dispatchResult_caught _ _ h

/-- The state and oracle of the C7 counterexample run: a `pre_screen` turn
whose outbound send of the first dynamic question raises. -/
def cex7State : InterviewState :=
  { initialState ["a.txt"] with currentStage := Stage.pre_screen }

def cex7Oracle : Oracle :=
  { wOracle with failAtSend := some 0 }

set_option maxRecDepth 8192 in
/-- C7 counterexample: with the send of the first dynamic question raising,
the exception is caught and answered with the generic message, but the
session is NOT left unchanged: the stage has already moved from `pre_screen`
to `jd_questions` (and the raw answer and assessment were recorded), so the
next utterance is processed against a different stage. -/
theorem dispatcher_exception_counterexample :
    (processUserMessage cex7Oracle (some "my background") cex7State).caught = true ∧
    (processUserMessage cex7Oracle (some "my background") cex7State).out = [errorActivity] ∧
    cex7State.currentStage = Stage.pre_screen ∧
    (processUserMessage cex7Oracle (some "my background") cex7State).state.currentStage =
      Stage.jd_questions ∧
    (processUserMessage cex7Oracle (some "my background") cex7State).state ≠ cex7State := by
  refine ⟨by decide, by decide, rfl, by decide, by decide⟩

set_option maxRecDepth 8192 in
/-- C7 witness: a concrete caught exception (failing send in a `complete`
stage turn) is answered by the generic error message and deletes nothing. -/
theorem dispatcher_exception_boundary_witness :
    (processUserMessage cex7Oracle (some "hello")
        { initialState ["a.txt"] with currentStage := Stage.complete }).out.getLast? =
      some errorActivity ∧
    (processUserMessage cex7Oracle (some "hello")
        { initialState ["a.txt"] with currentStage := Stage.complete }).deleted = false :=
  dispatcher_exception_boundary cex7Oracle (some "hello")
    { initialState ["a.txt"] with currentStage := Stage.complete } (by decide)

/-! ## C8: session destruction at completion -/

lemma lookup_removeUser (userId : String) (store : Store) :
    (removeUser userId store).lookup userId = none := by
  induction store with
  | nil => rfl
  | cons p rest ih =>
      by_cases h : p.1 = userId
      · simpa [removeUser, List.filter, h] using ih
      · unfold removeUser at ih ⊢
        simp only [List.filter]
        rw [show decide (p.1 ≠ userId) = true from by simp [h]]
        simpa [List.lookup, show (userId == p.1) = false from
          beq_eq_false_iff_ne.2 (fun hc => h hc.symm)] using ih

lemma completeInterview_no_fail (o : Oracle) (s : InterviewState) (em : Emitter)
    (hfail : o.failAtSend = none) :
    (completeInterview o s em).threw = false ∧ (completeInterview o s em).deleted = true := by
  unfold completeInterview
  rw [sendActivityAndPush_of_failAtSend_none _ _ _ _ _ hfail]
  simp

/-- C8: a turn that completes the interview (stage `closing`, non-empty text,
no send fault) removes the session record from the store, and the next
get-or-create for the same identity yields a brand-new session: stage
`greeting`, empty history, empty responses, question count zero. -/
theorem session_destroyed_on_complete (jds : List String) (o : Oracle) (userId : String)
    (text : Option String) (store : Store) (s : InterviewState)
    (hlook : store.lookup userId = some s)
    (hs : s.currentStage = Stage.closing)
    (ht : jsTrim (text.getD "") ≠ "")
    (hfail : o.failAtSend = none) :
    (processTurn jds o userId text store).1.lookup userId = none ∧
    (getUserState jds userId (processTurn jds o userId text store).1).1 = initialState jds ∧
    (initialState jds).currentStage = Stage.greeting ∧
    (initialState jds).conversationHistory = [] ∧
    (initialState jds).responses = [] ∧
    (initialState jds).questionCount = 0 := by
  have hci := completeInterview_no_fail o (pushHist s Role.user (jsTrim (text.getD ""))) em0 hfail
  have hstep : (processUserMessage o text s).deleted = true := by
    simp only [processUserMessage, if_neg ht, pushHist_currentStage, hs, dispatchResult, hci.1]
    simp [hci.2]
  have hstore : (processTurn jds o userId text store).1 = removeUser userId store := by
    simp only [processTurn, getUserState, hlook, hstep]
    simp
  rw [hstore]
  refine ⟨lookup_removeUser userId store, ?_, rfl, rfl, rfl, rfl⟩
  simp [getUserState, lookup_removeUser userId store]

/-- C8 witness: completing a concrete closing-stage session removes it and a
fresh greeting-stage session is created on next contact. -/
theorem session_destroyed_on_complete_witness :
    (processTurn ["a.txt"] wOracle "user-1" (some "thanks")
        [("user-1", { initialState ["a.txt"] with currentStage := Stage.closing })]).1.lookup
      "user-1" = none ∧
    (getUserState ["a.txt"] "user-1"
        (processTurn ["a.txt"] wOracle "user-1" (some "thanks")
          [("user-1", { initialState ["a.txt"] with currentStage := Stage.closing })]).1).1 =
      initialState ["a.txt"] := by
  have h := session_destroyed_on_complete ["a.txt"] wOracle "user-1" (some "thanks")
    [("user-1", { initialState ["a.txt"] with currentStage := Stage.closing })]
    { initialState ["a.txt"] with currentStage := Stage.closing }
    (by decide) rfl (by decide) rfl
  exact ⟨h.1, h.2.1⟩

/-! ## C10: the greeting-stage fallback -/

/-- C10: a session sitting in stage `greeting` (as created by `getUserState`
without a participant-joined event) matches no dispatch branch for inbound
text: the turn falls through to the unknown-state fallback, emits the generic
notice (absent send faults) and leaves the stage at `greeting`; only the
participant-joined welcome path advances `greeting` to `jd_selection`. -/
theorem greeting_stage_text_fallback (o : Oracle) (text : Option String)
    (s : InterviewState) (hs : s.currentStage = Stage.greeting)
    (ht : jsTrim (text.getD "") ≠ "") :
    (processUserMessage o text s).state.currentStage = Stage.greeting ∧
    (o.failAtSend = none → (processUserMessage o text s).out = [unknownStateActivity]) ∧
    (sendWelcomeMessage s).1.currentStage = Stage.jd_selection := by
  refine ⟨?_, ?_, by simp [sendWelcomeMessage, pushHist]⟩
  · simp [processUserMessage, if_neg ht, hs, dispatchResult_state, sendOnlyRes_state]
  · intro hfail
    simp [processUserMessage, if_neg ht, hs, dispatchResult, sendOnlyRes, trySend, hfail, em0]

/-- C10 witness: a fresh greeting-stage session answers inbound text with the
unknown-state notice and stays in `greeting`; the welcome path advances it. -/
theorem greeting_stage_text_fallback_witness :
    (processUserMessage wOracle (some "hello") wS0).state.currentStage = Stage.greeting ∧
    (processUserMessage wOracle (some "hello") wS0).out = [unknownStateActivity] ∧
    (sendWelcomeMessage wS0).1.currentStage = Stage.jd_selection := by
  have h := greeting_stage_text_fallback wOracle (some "hello") wS0 rfl (by decide)
  exact ⟨h.1, h.2.1 rfl, h.2.2⟩

/-! ## C9: spoken markup derivation -/

/-- The possible shapes of an outbound activity: markup derived from the text
by `generateSsml`, or one of the three hand-written-markup messages. -/
def OutOk (b : Activity) : Prop :=
  b.speak = generateSsml b.text ∨ b = nameClarificationActivity ∨ b = errorActivity ∨
  ∃ st, b = finalActivity st

lemma mem_emitSafe {b : Activity} (em : Emitter) (a : Activity)
    (hb : b ∈ (emitSafe em a).acts) : b ∈ em.acts ∨ b = a := by
  simp only [emitSafe, List.mem_append, List.mem_singleton] at hb
  exact hb

lemma mem_sendActivityAndPush {b : Activity} (o : Oracle) (s : InterviewState) (em : Emitter)
    (a : Activity) (t : String)
    (hb : b ∈ (sendActivityAndPush o s em a t).em.acts) : b ∈ em.acts ∨ b = a := by
  rcases sendActivityAndPush_acts o s em a t with h | h <;> rw [h] at hb
  · exact Or.inl hb
  · simpa using hb

lemma withSendErrorCatch_mem {b : Activity} (r : HRes)
    (hb : b ∈ (withSendErrorCatch r).em.acts) : b ∈ r.em.acts ∨ b = errorActivity := by
  unfold withSendErrorCatch at hb
  split at hb
  · exact mem_emitSafe _ _ hb
  · exact Or.inl hb

lemma handleJDSelection_out (o : Oracle) (s : InterviewState) (em : Emitter) (b : Activity)
    (hb : b ∈ (handleJDSelection o s em).em.acts) : b ∈ em.acts ∨ OutOk b := by
  unfold handleJDSelection at hb
  cases hsel : o.selection with
  | error e =>
      simp only [hsel] at hb
      rcases mem_emitSafe _ _ hb with h | h
      · exact Or.inl h
      · exact Or.inr (Or.inr (Or.inr (Or.inl h)))
  | ok content =>
      simp only [hsel] at hb
      rcases withSendErrorCatch_mem _ hb with h | h
      · split at h <;>
        · rcases mem_sendActivityAndPush _ _ _ _ _ h with h2 | h2
          · exact Or.inl h2
          · exact Or.inr (Or.inl (by simp [h2, mkActivity]))
      · exact Or.inr (Or.inr (Or.inr (Or.inl h)))

lemma sendNameClarification_out (o : Oracle) (s : InterviewState) (em : Emitter) (b : Activity)
    (hb : b ∈ (sendNameClarification o s em).em.acts) : b ∈ em.acts ∨ OutOk b := by
  unfold sendNameClarification at hb
  rcases mem_sendActivityAndPush _ _ _ _ _ hb with h | h
  · exact Or.inl h
  · exact Or.inr (Or.inr (Or.inl h))

lemma sendNextQuestion_out (o : Oracle) (s : InterviewState) (em : Emitter) (b : Activity)
    (hb : b ∈ (sendNextQuestion o s em).em.acts) : b ∈ em.acts ∨ OutOk b := by
  unfold sendNextQuestion at hb
  rcases mem_sendActivityAndPush _ _ _ _ _ hb with h | h
  · exact Or.inl h
  · exact Or.inr (Or.inl (by simp [h, mkActivity]))

lemma askNextDynamicQuestion_out (o : Oracle) (s : InterviewState) (em : Emitter) (b : Activity)
    (hb : b ∈ (askNextDynamicQuestion o s em).em.acts) : b ∈ em.acts ∨ OutOk b := by
  unfold askNextDynamicQuestion at hb
  rcases mem_sendActivityAndPush _ _ _ _ _ hb with h | h
  · exact Or.inl h
  · exact Or.inr (Or.inl (by simp [h, mkActivity]))

lemma handleNameExtraction_out (o : Oracle) (s : InterviewState) (em : Emitter) (b : Activity)
    (hb : b ∈ (handleNameExtraction o s em).em.acts) : b ∈ em.acts ∨ OutOk b := by
  unfold handleNameExtraction at hb
  cases hsel : o.nameExtract with
  | error e =>
      simp only [hsel] at hb
      exact sendNameClarification_out o s em b hb
  | ok content =>
      simp only [hsel] at hb
      split at hb
      · split at hb
        · rcases sendNameClarification_out _ _ _ _ hb with h | h
          · rcases sendNextQuestion_out _ _ _ _ h with h2 | h2
            · exact Or.inl h2
            · exact Or.inr h2
          · exact Or.inr h
        · rcases sendNextQuestion_out _ _ _ _ hb with h | h
          · exact Or.inl h
          · exact Or.inr h
      · split at hb
        · rcases sendNameClarification_out _ _ _ _ hb with h | h
          · rcases sendNameClarification_out _ _ _ _ h with h2 | h2
            · exact Or.inl h2
            · exact Or.inr h2
          · exact Or.inr h
        · rcases sendNameClarification_out _ _ _ _ hb with h | h
          · exact Or.inl h
          · exact Or.inr h

lemma completeInterview_out (o : Oracle) (s : InterviewState) (em : Emitter) (b : Activity)
    (hb : b ∈ (completeInterview o s em).em.acts) : b ∈ em.acts ∨ OutOk b := by
  unfold completeInterview at hb
  rcases mem_sendActivityAndPush _ _ _ _ _ hb with h | h
  · exact Or.inl h
  · exact Or.inr (Or.inr (Or.inr (Or.inr ⟨_, h⟩)))

lemma sendOnlyRes_out (o : Oracle) (s : InterviewState) (em : Emitter) (a : Activity)
    (b : Activity) (hb : b ∈ (sendOnlyRes o s em a).em.acts) : b ∈ em.acts ∨ b = a := by
  unfold sendOnlyRes trySend at hb
  split at hb
  · exact Or.inl hb
  · simpa using hb

lemma dispatchResult_out (r : HRes) (d : Bool) (b : Activity)
    (hb : b ∈ (dispatchResult r d).out) : b ∈ r.em.acts ∨ b = errorActivity := by
  unfold dispatchResult at hb
  split at hb
  · exact mem_emitSafe _ _ hb
  · exact Or.inl hb

/-- C9 (amended): every outbound activity of any processed turn carries
`speak = generateSsml text` — the escaped (`&`, `<`, `>`) derived wrapper —
except the three messages whose markup is hand-written in the source:
the name-clarification re-prompt, the technical-difficulties error message,
and the final interview summary. The welcome-path emissions are all derived.
(The claim as stated fails on those three; see the counterexample.) -/
theorem ssml_wrapper_amended (o : Oracle) (text : Option String) (s : InterviewState)
    (b : Activity) :
    (b ∈ (processUserMessage o text s).out → OutOk b) ∧
    (b ∈ (sendWelcomeMessage s).2 → b.speak = generateSsml b.text) := by
  constructor
  · intro hb
    by_cases ht : jsTrim (text.getD "") = ""
    · simp [processUserMessage, ht] at hb
      simp [hb, OutOk, noSpeechActivity, mkActivity]
    · have herr : OutOk errorActivity := Or.inr (Or.inr (Or.inl rfl))
      have hem0 : ∀ c : Activity, c ∈ em0.acts → OutOk c := by
        intro c hc
        simp [em0] at hc
      cases hs : s.currentStage with
      | jd_selection =>
          simp only [processUserMessage, if_neg ht, pushHist_currentStage, hs] at hb
          rcases dispatchResult_out _ _ _ hb with h | h
          · rcases handleJDSelection_out _ _ _ _ h with h2 | h2
            · exact hem0 b h2
            · exact h2
          · exact h ▸ herr
      | name_prompt =>
          simp only [processUserMessage, if_neg ht, pushHist_currentStage, hs] at hb
          rcases dispatchResult_out _ _ _ hb with h | h
          · rcases handleNameExtraction_out _ _ _ _ h with h2 | h2
            · exact hem0 b h2
            · exact h2
          · exact h ▸ herr
      | pre_screen =>
          simp only [processUserMessage, if_neg ht, pushHist_currentStage, hs] at hb
          rcases dispatchResult_out _ _ _ hb with h | h
          · rcases askNextDynamicQuestion_out _ _ _ _ h with h2 | h2
            · exact hem0 b h2
            · exact h2
          · exact h ▸ herr
      | jd_questions =>
          simp only [processUserMessage, if_neg ht, pushHist_currentStage, hs] at hb
          split at hb
          · rcases dispatchResult_out _ _ _ hb with h | h
            · rcases askNextDynamicQuestion_out _ _ _ _ h with h2 | h2
              · exact hem0 b h2
              · exact h2
            · exact h ▸ herr
          · rcases dispatchResult_out _ _ _ hb with h | h
            · rcases sendNextQuestion_out _ _ _ _ h with h2 | h2
              · exact hem0 b h2
              · exact h2
            · exact h ▸ herr
      | closing =>
          simp only [processUserMessage, if_neg ht, pushHist_currentStage, hs] at hb
          rcases dispatchResult_out _ _ _ hb with h | h
          · rcases completeInterview_out _ _ _ _ h with h2 | h2
            · exact hem0 b h2
            · exact h2
          · exact h ▸ herr
      | complete =>
          simp only [processUserMessage, if_neg ht, pushHist_currentStage, hs] at hb
          rcases dispatchResult_out _ _ _ hb with h | h
          · rcases sendOnlyRes_out _ _ _ _ _ h with h2 | h2
            · exact hem0 b h2
            · exact Or.inl (by simp [h2, completedNoticeActivity, mkActivity])
          · exact h ▸ herr
      | greeting =>
          simp only [processUserMessage, if_neg ht, pushHist_currentStage, hs] at hb
          rcases dispatchResult_out _ _ _ hb with h | h
          · rcases sendOnlyRes_out _ _ _ _ _ h with h2 | h2
            · exact hem0 b h2
            · exact Or.inl (by simp [h2, unknownStateActivity, mkActivity])
          · exact h ▸ herr
  · intro hb
    simp only [sendWelcomeMessage, List.mem_cons, List.mem_singleton,
      List.not_mem_nil, or_false] at hb
    rcases hb with hb | hb <;> simp [hb, mkActivity]

/-- The state and oracle of the C9 counterexample run: a `name_prompt` turn
whose extraction returns the sentinel, triggering the clarification with its
hand-written markup. -/
def cex9State : InterviewState :=
  { initialState ["a.txt"] with currentStage := Stage.name_prompt }

def cex9Oracle : Oracle :=
  { wOracle with nameExtract := Except.ok (some "N/A") }

set_option maxRecDepth 8192 in
/-- C9 counterexample: the name-clarification re-prompt is an outbound
message whose `speak` field is NOT the escaped derived wrapper of its `text`
field — its markup is hand-written and even speaks different words. -/
theorem ssml_wrapper_counterexample :
    (processUserMessage cex9Oracle (some "mumble mumble") cex9State).out =
      [nameClarificationActivity] ∧
    nameClarificationActivity.speak ≠ generateSsml nameClarificationActivity.text := by
  refine ⟨by decide, by decide⟩

set_option maxRecDepth 8192 in
/-- C9 witness: a derived-wrapper activity emitted by a concrete turn
satisfies the amended disjunction. -/
theorem ssml_wrapper_amended_witness :
    (mkActivity namePromptQuestion).speak = generateSsml (mkActivity namePromptQuestion).text ∨
    mkActivity namePromptQuestion = nameClarificationActivity ∨
    mkActivity namePromptQuestion = errorActivity ∨
    ∃ st, mkActivity namePromptQuestion = finalActivity st := by
  have h := (ssml_wrapper_amended wOracle (some "the first role") wS1
    (mkActivity namePromptQuestion)).1 (by decide)
  exact h

end InterviewBot
